import Mathlib

/-
  Verification development for the MusicScriptingBridge of
  ronny/apple-music-discord.

  The repository ships the C header src/MusicScriptingBridge.h, which fixes
  the data model (the MusicPlayerState enumeration and the DetailedTrackInfo
  struct) and declares the public accessors
  (isMusicAppRunning, getPlayerState, getPlayerPosition, getCurrentTrackInfo,
  freeTrackInfo, clearTrackCache).  The bodies of those functions are not part
  of src/, so the behaviour of the Snapshot Cache & Translator is modelled
  here from the specification (sections 4.1 and 4.2 of spec.md).

  Embedding conventions:
  - C int flags (isValid, isPlaying, isPaused) are modelled as Bool;
  - nullable char* fields are modelled as Option String;
  - C int numeric fields are modelled as Int (sentinel default 0);
  - C double fields are modelled as Rat (sentinel default 0); no
    floating-point arithmetic occurs anywhere in the modelled code, the
    doubles are only passed through or set to the 0.0 sentinel, so an exact
    numeric type is a faithful carrier for them.
-/

namespace MusicScriptingBridge

/-- Player state enumeration, from src/MusicScriptingBridge.h lines 12-18:
Stopped = 0, Playing = 1, Paused = 2, FastForwarding = 3, Rewinding = 4. -/
inductive MusicPlayerState where
  | stopped
  | playing
  | paused
  | fastForwarding
  | rewinding
deriving DecidableEq

/-- Detailed track information snapshot, from src/MusicScriptingBridge.h
lines 21-42.  Field order and names follow the C struct; char* fields are
Option String, int flags are Bool, doubles are Rat. -/
structure DetailedTrackInfo where
  isValid : Bool
  title : Option String
  artist : Option String
  album : Option String
  albumArtist : Option String
  composer : Option String
  genre : Option String
  persistentID : Option String
  databaseID : Int
  year : Int
  trackNumber : Int
  trackCount : Int
  discNumber : Int
  discCount : Int
  duration : Rat
  playedCount : Int
  rating : Int
  playedDate : Rat
  isPlaying : Bool
  isPaused : Bool
deriving DecidableEq

/-- Modelled from the spec: the raw metadata bag returned by the Automation
Channel Adapter (spec section 4.1, queryRawTrackMetadata).  Every field may be
individually absent, hence each is an Option. -/
structure RawMetadataBag where
  title : Option String
  artist : Option String
  album : Option String
  albumArtist : Option String
  composer : Option String
  genre : Option String
  persistentID : Option String
  databaseID : Option Int
  year : Option Int
  trackNumber : Option Int
  trackCount : Option Int
  discNumber : Option Int
  discCount : Option Int
  duration : Option Rat
  playedCount : Option Int
  rating : Option Int
  playedDate : Option Rat
deriving DecidableEq

/-- Modelled from the spec: the track identity used as the cache key
(spec section 4.2): prefer the persistent identifier, fall back to the
(title, artist, album) tuple when the identifier is absent. -/
inductive TrackIdentity where
  | byPersistentID (pid : String)
  | byFallback (title artist album : Option String)
deriving DecidableEq

/-- Modelled from the spec: derive the track identity from a raw bag
(spec section 4.2). -/
def trackIdentityOf (bag : RawMetadataBag) : TrackIdentity :=
  match bag.persistentID with
  | some pid => TrackIdentity.byPersistentID pid
  | none => TrackIdentity.byFallback bag.title bag.artist bag.album

/-- Modelled from the spec: the state of the external Automation Channel
Adapter at one query instant (spec sections 2 and 4.1).  `reachable` is false
when the automation channel is unreachable or timed out; `running` is the
liveness of the external player process; `state`, `position` and `metadata`
are what the player would report when reachable and running. -/
structure Adapter where
  reachable : Bool
  running : Bool
  state : MusicPlayerState
  position : Option Rat
  metadata : Option RawMetadataBag
deriving DecidableEq

/-- Modelled from the spec: isExternalPlayerRunning (spec section 4.1) —
cheap liveness check; on failure to determine (unreachable channel) it
returns false. -/
def Adapter.isExternalPlayerRunning (a : Adapter) : Bool :=
  a.reachable && a.running

/-- Modelled from the spec: queryPlayerState (spec section 4.1) — returns
Stopped if the player is not running or the query cannot be completed. -/
def Adapter.queryPlayerState (a : Adapter) : MusicPlayerState :=
  if a.isExternalPlayerRunning then a.state else MusicPlayerState.stopped

/-- Modelled from the spec: the position query (spec sections 2 and 4.2) —
0.0 when unavailable. -/
def Adapter.queryPosition (a : Adapter) : Rat :=
  if a.isExternalPlayerRunning then a.position.getD 0 else 0

/-- Modelled from the spec: queryRawTrackMetadata (spec section 4.1) —
NotAvailable (none) when there is no current track or the player is
unreachable. -/
def Adapter.queryRawTrackMetadata (a : Adapter) : Option RawMetadataBag :=
  if a.isExternalPlayerRunning then a.metadata else none

/-- Modelled from the spec: an adapter is coherent when a missing current
track is reported together with the Stopped transport state — a player that
has no current track is not playing anything.  This environment assumption is
implicit in every scenario of spec section 8. -/
def Adapter.Coherent (a : Adapter) : Prop :=
  a.metadata = none → a.state = MusicPlayerState.stopped

instance (a : Adapter) : Decidable a.Coherent := by
  unfold Adapter.Coherent; infer_instance

/-- Modelled from the spec: the invalid snapshot returned when the player is
not running or no metadata is available (spec section 4.2): isValid = false
and every other field at its unset/default value. -/
def invalidSnapshot : DetailedTrackInfo :=
  { isValid := false
    title := none
    artist := none
    album := none
    albumArtist := none
    composer := none
    genre := none
    persistentID := none
    databaseID := 0
    year := 0
    trackNumber := 0
    trackCount := 0
    discNumber := 0
    discCount := 0
    duration := 0
    playedCount := 0
    rating := 0
    playedDate := 0
    isPlaying := false
    isPaused := false }

/-- Modelled from the spec: the fixed mapping from PlayerState to the derived
isPlaying boolean (spec section 4.2). -/
def derivedIsPlaying (s : MusicPlayerState) : Bool :=
  match s with
  | MusicPlayerState.playing => true
  | _ => false

/-- Modelled from the spec: the fixed mapping from PlayerState to the derived
isPaused boolean (spec section 4.2). -/
def derivedIsPaused (s : MusicPlayerState) : Bool :=
  match s with
  | MusicPlayerState.paused => true
  | _ => false

/-- Modelled from the spec: populate a fresh snapshot from a raw bag and the
PlayerState read at the same query (spec section 4.2).  Textual fields pass
through as-is (each independently nullable); numeric fields absent from the
raw bag are normalized to the documented sentinel defaults (0 for counts/ids,
0.0 for duration/timestamp); the booleans come from the fixed mapping. -/
def populateSnapshot (bag : RawMetadataBag) (s : MusicPlayerState) :
    DetailedTrackInfo :=
  { isValid := true
    title := bag.title
    artist := bag.artist
    album := bag.album
    albumArtist := bag.albumArtist
    composer := bag.composer
    genre := bag.genre
    persistentID := bag.persistentID
    databaseID := bag.databaseID.getD 0
    year := bag.year.getD 0
    trackNumber := bag.trackNumber.getD 0
    trackCount := bag.trackCount.getD 0
    discNumber := bag.discNumber.getD 0
    discCount := bag.discCount.getD 0
    duration := bag.duration.getD 0
    playedCount := bag.playedCount.getD 0
    rating := bag.rating.getD 0
    playedDate := bag.playedDate.getD 0
    isPlaying := derivedIsPlaying s
    isPaused := derivedIsPaused s }

/-- Modelled from the spec: the cache state of the Snapshot Cache & Translator
(spec sections 3 and 4.2): at most one cached snapshot at a time, keyed by
track identity. -/
structure BridgeState where
  cache : Option (TrackIdentity × DetailedTrackInfo)
deriving DecidableEq

/-- The initial bridge state: empty cache. -/
def BridgeState.empty : BridgeState := { cache := none }

/-- A bridge state is well formed when any cached snapshot is valid (the
cache only ever stores snapshots produced by a successful populate). -/
def BridgeState.wf (st : BridgeState) : Bool :=
  st.cache.all fun c => c.2.isValid

/-- Result of one getCurrentTrackInfo query: the returned snapshot, the
bridge state afterwards, and whether a full (expensive) metadata fetch was
performed — the observable a test double on the adapter would count. -/
structure QueryResult where
  snapshot : DetailedTrackInfo
  after : BridgeState
  didFullFetch : Bool
deriving DecidableEq

/-- Modelled from the spec: getCurrentTrackInfo (spec section 4.2, whose body
is not under src/; only its declaration at src/MusicScriptingBridge.h line 48
is).  If the adapter reports the player not running, or the raw metadata is
NotAvailable, return the invalid snapshot and leave the cache alone.
Otherwise derive the track identity from the raw bag; on a cache hit serve
the expensive metadata fields from the cache and refresh only the
state-sensitive booleans from the PlayerState read at this query; on a miss
perform a full fetch, populate a fresh snapshot and replace the cache. -/
def getCurrentTrackInfo (a : Adapter) (st : BridgeState) : QueryResult :=
  if a.isExternalPlayerRunning then
    match a.queryRawTrackMetadata with
    | none => { snapshot := invalidSnapshot, after := st, didFullFetch := false }
    | some bag =>
      match st.cache with
      | some (cid, cached) =>
        if cid = trackIdentityOf bag then
          { snapshot :=
              { cached with
                isPlaying := derivedIsPlaying a.queryPlayerState
                isPaused := derivedIsPaused a.queryPlayerState }
            after := st
            didFullFetch := false }
        else
          { snapshot := populateSnapshot bag a.queryPlayerState
            after := { cache := some (trackIdentityOf bag,
                                      populateSnapshot bag a.queryPlayerState) }
            didFullFetch := true }
      | none =>
        { snapshot := populateSnapshot bag a.queryPlayerState
          after := { cache := some (trackIdentityOf bag,
                                    populateSnapshot bag a.queryPlayerState) }
          didFullFetch := true }
  else { snapshot := invalidSnapshot, after := st, didFullFetch := false }

/-- Modelled from the spec: getPlayerState (spec section 4.2) — always a live
pass-through to the adapter, never cached. -/
def getPlayerState (a : Adapter) : MusicPlayerState :=
  a.queryPlayerState

/-- Modelled from the spec: getPlayerPosition (spec section 4.2) — always a
live pass-through; 0.0 when unavailable. -/
def getPlayerPosition (a : Adapter) : Rat :=
  a.queryPosition

/-- Modelled from the spec: isMusicAppRunning (declared at
src/MusicScriptingBridge.h line 45) — pass-through of the adapter liveness
check. -/
def isMusicAppRunning (a : Adapter) : Bool :=
  a.isExternalPlayerRunning

/-- Modelled from the spec: clearTrackCache (spec section 4.2 clearCache,
declared at src/MusicScriptingBridge.h line 50) — discards the cached
snapshot unconditionally. -/
def clearTrackCache (_st : BridgeState) : BridgeState :=
  { cache := none }

/-! Concrete sample data used by witnesses. -/

/-- A sample raw metadata bag with a persistent identifier. -/
def sampleBag : RawMetadataBag :=
  { title := some "Song A"
    artist := some "Artist A"
    album := some "Album A"
    albumArtist := some "Artist A"
    composer := none
    genre := some "Pop"
    persistentID := some "PID0001"
    databaseID := some 7
    year := some 2001
    trackNumber := some 3
    trackCount := some 12
    discNumber := some 1
    discCount := some 1
    duration := some 200
    playedCount := some 5
    rating := some 80
    playedDate := some 1000 }

/-- A sample adapter: channel reachable, player not running. -/
def adapterOff : Adapter :=
  { reachable := true
    running := false
    state := MusicPlayerState.playing
    position := some 10
    metadata := some sampleBag }

/-- A sample adapter: channel reachable, player running and playing the
sample track. -/
def adapterOn : Adapter :=
  { reachable := true
    running := true
    state := MusicPlayerState.playing
    position := some 42
    metadata := some sampleBag }

/-! Helper lemmas shared across the development. -/

/-- The empty bridge state is well formed. -/
theorem wf_empty : BridgeState.empty.wf = true := rfl

/-- Clearing the cache yields a well-formed state. -/
theorem wf_clearTrackCache (st : BridgeState) :
    (clearTrackCache st).wf = true := rfl

/-- getCurrentTrackInfo preserves well-formedness of the bridge state. -/
theorem wf_getCurrentTrackInfo (a : Adapter) (st : BridgeState)
    (hwf : st.wf = true) : (getCurrentTrackInfo a st).after.wf = true := by
  unfold getCurrentTrackInfo
  split
  · split
    · exact hwf
    · split
      · split
        · exact hwf
        · rfl
      · rfl
  · exact hwf

/-- Equation lemma: the player is not running, so the query returns the
invalid snapshot and leaves the cache alone. -/
theorem getCTI_notRunning (a : Adapter) (st : BridgeState)
    (hr : a.isExternalPlayerRunning = false) :
    getCurrentTrackInfo a st =
      { snapshot := invalidSnapshot, after := st, didFullFetch := false } := by
  unfold getCurrentTrackInfo
  rw [hr]
  rfl

/-- Equation lemma: the player is running but has no current track, so the
query returns the invalid snapshot and leaves the cache alone. -/
theorem getCTI_noMetadata (a : Adapter) (st : BridgeState)
    (hr : a.isExternalPlayerRunning = true) (hm : a.metadata = none) :
    getCurrentTrackInfo a st =
      { snapshot := invalidSnapshot, after := st, didFullFetch := false } := by
  unfold getCurrentTrackInfo Adapter.queryRawTrackMetadata
  rw [hr, hm]
  rfl

/-- Equation lemma: cache hit — identity matches, so the cached metadata is
served with only the booleans refreshed, and no full fetch happens. -/
theorem getCTI_cacheHit (a : Adapter) (st : BridgeState) (bag : RawMetadataBag)
    (cached : DetailedTrackInfo)
    (hr : a.isExternalPlayerRunning = true) (hm : a.metadata = some bag)
    (hc : st.cache = some (trackIdentityOf bag, cached)) :
    getCurrentTrackInfo a st =
      { snapshot :=
          { cached with
            isPlaying := derivedIsPlaying a.queryPlayerState
            isPaused := derivedIsPaused a.queryPlayerState }
        after := st
        didFullFetch := false } := by
  unfold getCurrentTrackInfo Adapter.queryRawTrackMetadata
  rw [hr, hm, hc]
  simp

/-- Equation lemma: empty cache — a full fetch populates a fresh snapshot
and stores it in the cache. -/
theorem getCTI_cacheMiss_empty (a : Adapter) (st : BridgeState)
    (bag : RawMetadataBag)
    (hr : a.isExternalPlayerRunning = true) (hm : a.metadata = some bag)
    (hc : st.cache = none) :
    getCurrentTrackInfo a st =
      { snapshot := populateSnapshot bag a.queryPlayerState
        after := { cache := some (trackIdentityOf bag,
                                  populateSnapshot bag a.queryPlayerState) }
        didFullFetch := true } := by
  unfold getCurrentTrackInfo Adapter.queryRawTrackMetadata
  rw [hr, hm, hc]
  rfl

/-- Equation lemma: identity mismatch — a full fetch populates a fresh
snapshot and replaces the cache contents. -/
theorem getCTI_cacheMiss_other (a : Adapter) (st : BridgeState)
    (bag : RawMetadataBag) (cid : TrackIdentity) (cached : DetailedTrackInfo)
    (hr : a.isExternalPlayerRunning = true) (hm : a.metadata = some bag)
    (hc : st.cache = some (cid, cached)) (hne : cid ≠ trackIdentityOf bag) :
    getCurrentTrackInfo a st =
      { snapshot := populateSnapshot bag a.queryPlayerState
        after := { cache := some (trackIdentityOf bag,
                                  populateSnapshot bag a.queryPlayerState) }
        didFullFetch := true } := by
  unfold getCurrentTrackInfo Adapter.queryRawTrackMetadata
  rw [hr, hm, hc]
  simp [hne]

/-- Either the returned snapshot is valid, or it is exactly the invalid
snapshot — provided the cache only holds valid snapshots. -/
theorem snapshot_valid_or_invalid (a : Adapter) (st : BridgeState)
    (hwf : st.wf = true) :
    (getCurrentTrackInfo a st).snapshot.isValid = true ∨
    (getCurrentTrackInfo a st).snapshot = invalidSnapshot := by
  unfold getCurrentTrackInfo
  split
  · split
    · exact Or.inr rfl
    · split
      · rename_i cid cached heq
        split
        · left
          show cached.isValid = true
          unfold BridgeState.wf at hwf
          rw [heq] at hwf
          exact hwf
        · exact Or.inl rfl
      · exact Or.inl rfl
  · exact Or.inr rfl

/-- The two derived booleans of any returned snapshot are never both true. -/
theorem snapshot_bools_not_both (a : Adapter) (st : BridgeState) :
    ((getCurrentTrackInfo a st).snapshot.isPlaying &&
      (getCurrentTrackInfo a st).snapshot.isPaused) = false := by
  unfold getCurrentTrackInfo
  split
  · split
    · rfl
    · split
      · split
        · cases a.queryPlayerState <;> rfl
        · cases a.queryPlayerState <;> rfl
      · cases a.queryPlayerState <;> rfl
  · rfl

/-! Claim theorems. -/

/-- C1: for every query made while the external player is not running,
getCurrentTrackInfo() returns a snapshot with isValid = false,
getPlayerState() returns Stopped, and getPlayerPosition() returns 0.0. -/
theorem notRunning_query_defaults (a : Adapter) (st : BridgeState)
    (h : a.running = false) :
    (getCurrentTrackInfo a st).snapshot.isValid = false ∧
    getPlayerState a = MusicPlayerState.stopped ∧
    getPlayerPosition a = 0 := by
  have hr : a.isExternalPlayerRunning = false := by
    unfold Adapter.isExternalPlayerRunning
    rw [h, Bool.and_false]
  refine ⟨?_, ?_, ?_⟩
  · unfold getCurrentTrackInfo
    rw [hr]
    rfl
  · unfold getPlayerState Adapter.queryPlayerState
    rw [hr]
    rfl
  · unfold getPlayerPosition Adapter.queryPosition
    rw [hr]
    rfl

/-- Witness for C1 at a concrete not-running adapter. -/
theorem notRunning_query_defaults_witness :
    adapterOff.running = false ∧
    ((getCurrentTrackInfo adapterOff BridgeState.empty).snapshot.isValid = false ∧
      getPlayerState adapterOff = MusicPlayerState.stopped ∧
      getPlayerPosition adapterOff = 0) :=
  ⟨rfl, notRunning_query_defaults adapterOff BridgeState.empty rfl⟩

/-- C2: for every snapshot returned by getCurrentTrackInfo with
isValid = true, the derived booleans isPlaying and isPaused are never both
true at the same time. -/
theorem valid_snapshot_mutually_exclusive (a : Adapter) (st : BridgeState)
    (_h : (getCurrentTrackInfo a st).snapshot.isValid = true) :
    ¬((getCurrentTrackInfo a st).snapshot.isPlaying = true ∧
      (getCurrentTrackInfo a st).snapshot.isPaused = true) := by
  intro hboth
  have hb := snapshot_bools_not_both a st
  rw [hboth.1, hboth.2] at hb
  exact Bool.noConfusion hb

/-- Witness for C2 at a concrete running, playing adapter. -/
theorem valid_snapshot_mutually_exclusive_witness :
    (getCurrentTrackInfo adapterOn BridgeState.empty).snapshot.isValid = true ∧
    ¬((getCurrentTrackInfo adapterOn BridgeState.empty).snapshot.isPlaying = true ∧
      (getCurrentTrackInfo adapterOn BridgeState.empty).snapshot.isPaused = true) :=
  ⟨by decide, valid_snapshot_mutually_exclusive adapterOn BridgeState.empty (by decide)⟩

/-- C3: for every snapshot returned by getCurrentTrackInfo with
isValid = false (over well-formed cache states, i.e. states actually
reachable by the bridge), every other field is at its unset/default value:
the six textual fields and persistentID are null, the numeric fields are at
the sentinel defaults 0 and 0.0, and the two booleans are false. -/
theorem invalid_snapshot_all_defaults (a : Adapter) (st : BridgeState)
    (hwf : st.wf = true)
    (h : (getCurrentTrackInfo a st).snapshot.isValid = false) :
    (getCurrentTrackInfo a st).snapshot.title = none ∧
    (getCurrentTrackInfo a st).snapshot.artist = none ∧
    (getCurrentTrackInfo a st).snapshot.album = none ∧
    (getCurrentTrackInfo a st).snapshot.albumArtist = none ∧
    (getCurrentTrackInfo a st).snapshot.composer = none ∧
    (getCurrentTrackInfo a st).snapshot.genre = none ∧
    (getCurrentTrackInfo a st).snapshot.persistentID = none ∧
    (getCurrentTrackInfo a st).snapshot.databaseID = 0 ∧
    (getCurrentTrackInfo a st).snapshot.year = 0 ∧
    (getCurrentTrackInfo a st).snapshot.trackNumber = 0 ∧
    (getCurrentTrackInfo a st).snapshot.trackCount = 0 ∧
    (getCurrentTrackInfo a st).snapshot.discNumber = 0 ∧
    (getCurrentTrackInfo a st).snapshot.discCount = 0 ∧
    (getCurrentTrackInfo a st).snapshot.duration = 0 ∧
    (getCurrentTrackInfo a st).snapshot.playedCount = 0 ∧
    (getCurrentTrackInfo a st).snapshot.rating = 0 ∧
    (getCurrentTrackInfo a st).snapshot.playedDate = 0 ∧
    (getCurrentTrackInfo a st).snapshot.isPlaying = false ∧
    (getCurrentTrackInfo a st).snapshot.isPaused = false := by
  rcases snapshot_valid_or_invalid a st hwf with hv | he
  · rw [h] at hv
    exact Bool.noConfusion hv
  · rw [he]
    exact ⟨rfl, rfl, rfl, rfl, rfl, rfl, rfl, rfl, rfl, rfl, rfl, rfl, rfl,
      rfl, rfl, rfl, rfl, rfl, rfl⟩

/-- Witness for C3 at a concrete not-running adapter and the empty cache. -/
theorem invalid_snapshot_all_defaults_witness :
    (BridgeState.empty.wf = true ∧
      (getCurrentTrackInfo adapterOff BridgeState.empty).snapshot.isValid = false) ∧
    ((getCurrentTrackInfo adapterOff BridgeState.empty).snapshot.title = none ∧
     (getCurrentTrackInfo adapterOff BridgeState.empty).snapshot.artist = none ∧
     (getCurrentTrackInfo adapterOff BridgeState.empty).snapshot.album = none ∧
     (getCurrentTrackInfo adapterOff BridgeState.empty).snapshot.albumArtist = none ∧
     (getCurrentTrackInfo adapterOff BridgeState.empty).snapshot.composer = none ∧
     (getCurrentTrackInfo adapterOff BridgeState.empty).snapshot.genre = none ∧
     (getCurrentTrackInfo adapterOff BridgeState.empty).snapshot.persistentID = none ∧
     (getCurrentTrackInfo adapterOff BridgeState.empty).snapshot.databaseID = 0 ∧
     (getCurrentTrackInfo adapterOff BridgeState.empty).snapshot.year = 0 ∧
     (getCurrentTrackInfo adapterOff BridgeState.empty).snapshot.trackNumber = 0 ∧
     (getCurrentTrackInfo adapterOff BridgeState.empty).snapshot.trackCount = 0 ∧
     (getCurrentTrackInfo adapterOff BridgeState.empty).snapshot.discNumber = 0 ∧
     (getCurrentTrackInfo adapterOff BridgeState.empty).snapshot.discCount = 0 ∧
     (getCurrentTrackInfo adapterOff BridgeState.empty).snapshot.duration = 0 ∧
     (getCurrentTrackInfo adapterOff BridgeState.empty).snapshot.playedCount = 0 ∧
     (getCurrentTrackInfo adapterOff BridgeState.empty).snapshot.rating = 0 ∧
     (getCurrentTrackInfo adapterOff BridgeState.empty).snapshot.playedDate = 0 ∧
     (getCurrentTrackInfo adapterOff BridgeState.empty).snapshot.isPlaying = false ∧
     (getCurrentTrackInfo adapterOff BridgeState.empty).snapshot.isPaused = false) :=
  ⟨⟨rfl, rfl⟩, invalid_snapshot_all_defaults adapterOff BridgeState.empty rfl rfl⟩

/-- C4: in every snapshot produced by getCurrentTrackInfo (over coherent
adapters, i.e. a player with no current track reports the Stopped state),
the booleans are derived from the PlayerState read at the same query by the
fixed mapping: Playing gives isPlaying = true and isPaused = false, Paused
gives isPaused = true and isPlaying = false, and Stopped, FastForwarding
and Rewinding give both false. -/
theorem snapshot_bools_fixed_mapping (a : Adapter) (st : BridgeState)
    (hcoh : a.Coherent) :
    ((getCurrentTrackInfo a st).snapshot.isPlaying =
        derivedIsPlaying (getPlayerState a) ∧
      (getCurrentTrackInfo a st).snapshot.isPaused =
        derivedIsPaused (getPlayerState a)) ∧
    (derivedIsPlaying MusicPlayerState.playing = true ∧
      derivedIsPaused MusicPlayerState.playing = false) ∧
    (derivedIsPaused MusicPlayerState.paused = true ∧
      derivedIsPlaying MusicPlayerState.paused = false) ∧
    (derivedIsPlaying MusicPlayerState.stopped = false ∧
      derivedIsPaused MusicPlayerState.stopped = false) ∧
    (derivedIsPlaying MusicPlayerState.fastForwarding = false ∧
      derivedIsPaused MusicPlayerState.fastForwarding = false) ∧
    (derivedIsPlaying MusicPlayerState.rewinding = false ∧
      derivedIsPaused MusicPlayerState.rewinding = false) := by
  refine ⟨?_, ⟨rfl, rfl⟩, ⟨rfl, rfl⟩, ⟨rfl, rfl⟩, ⟨rfl, rfl⟩, ⟨rfl, rfl⟩⟩
  show (getCurrentTrackInfo a st).snapshot.isPlaying =
      derivedIsPlaying a.queryPlayerState ∧
    (getCurrentTrackInfo a st).snapshot.isPaused =
      derivedIsPaused a.queryPlayerState
  unfold getCurrentTrackInfo
  split
  · rename_i hr
    split
    · rename_i hm
      have hmd : a.metadata = none := by
        unfold Adapter.queryRawTrackMetadata at hm
        rw [hr] at hm
        exact hm
      have hst : a.queryPlayerState = MusicPlayerState.stopped := by
        unfold Adapter.queryPlayerState
        rw [hr, hcoh hmd]
        rfl
      rw [hst]
      exact ⟨rfl, rfl⟩
    · split
      · split
        · exact ⟨rfl, rfl⟩
        · exact ⟨rfl, rfl⟩
      · exact ⟨rfl, rfl⟩
  · rename_i hr
    have hrf : a.isExternalPlayerRunning = false := Bool.eq_false_iff.mpr hr
    have hst : a.queryPlayerState = MusicPlayerState.stopped := by
      unfold Adapter.queryPlayerState
      rw [hrf]
      rfl
    rw [hst]
    exact ⟨rfl, rfl⟩

/-- Witness for C4 at a concrete coherent running adapter. -/
theorem snapshot_bools_fixed_mapping_witness :
    adapterOn.Coherent ∧
    (((getCurrentTrackInfo adapterOn BridgeState.empty).snapshot.isPlaying =
         derivedIsPlaying (getPlayerState adapterOn) ∧
       (getCurrentTrackInfo adapterOn BridgeState.empty).snapshot.isPaused =
         derivedIsPaused (getPlayerState adapterOn)) ∧
     (derivedIsPlaying MusicPlayerState.playing = true ∧
       derivedIsPaused MusicPlayerState.playing = false) ∧
     (derivedIsPaused MusicPlayerState.paused = true ∧
       derivedIsPlaying MusicPlayerState.paused = false) ∧
     (derivedIsPlaying MusicPlayerState.stopped = false ∧
       derivedIsPaused MusicPlayerState.stopped = false) ∧
     (derivedIsPlaying MusicPlayerState.fastForwarding = false ∧
       derivedIsPaused MusicPlayerState.fastForwarding = false) ∧
     (derivedIsPlaying MusicPlayerState.rewinding = false ∧
       derivedIsPaused MusicPlayerState.rewinding = false)) :=
  ⟨by decide, snapshot_bools_fixed_mapping adapterOn BridgeState.empty (by decide)⟩

/-- Overriding the booleans of a freshly populated snapshot with the same
derived values is the identity. -/
theorem populate_bools_override (bag : RawMetadataBag) (q : MusicPlayerState) :
    ({ populateSnapshot bag q with
        isPlaying := derivedIsPlaying q
        isPaused := derivedIsPaused q } : DetailedTrackInfo) =
      populateSnapshot bag q := rfl

/-- C5: two successive getCurrentTrackInfo calls with no external state
change and no clearCache between them return snapshots with identical
metadata fields (textual fields equal by value), and the second call is
served from the cache: it performs no full metadata fetch. -/
theorem repeat_query_cache_reuse (a : Adapter) (st : BridgeState) :
    ((getCurrentTrackInfo a (getCurrentTrackInfo a st).after).snapshot.title =
        (getCurrentTrackInfo a st).snapshot.title ∧
      (getCurrentTrackInfo a (getCurrentTrackInfo a st).after).snapshot.artist =
        (getCurrentTrackInfo a st).snapshot.artist ∧
      (getCurrentTrackInfo a (getCurrentTrackInfo a st).after).snapshot.album =
        (getCurrentTrackInfo a st).snapshot.album ∧
      (getCurrentTrackInfo a (getCurrentTrackInfo a st).after).snapshot.albumArtist =
        (getCurrentTrackInfo a st).snapshot.albumArtist ∧
      (getCurrentTrackInfo a (getCurrentTrackInfo a st).after).snapshot.composer =
        (getCurrentTrackInfo a st).snapshot.composer ∧
      (getCurrentTrackInfo a (getCurrentTrackInfo a st).after).snapshot.genre =
        (getCurrentTrackInfo a st).snapshot.genre ∧
      (getCurrentTrackInfo a (getCurrentTrackInfo a st).after).snapshot.persistentID =
        (getCurrentTrackInfo a st).snapshot.persistentID) ∧
    (getCurrentTrackInfo a (getCurrentTrackInfo a st).after).didFullFetch = false := by
  have key : (getCurrentTrackInfo a (getCurrentTrackInfo a st).after).snapshot =
      (getCurrentTrackInfo a st).snapshot ∧
      (getCurrentTrackInfo a (getCurrentTrackInfo a st).after).didFullFetch = false := by
    cases hr : a.isExternalPlayerRunning with
    | false =>
      rw [getCTI_notRunning a st hr]
      exact ⟨congrArg QueryResult.snapshot (getCTI_notRunning a _ hr),
        congrArg QueryResult.didFullFetch (getCTI_notRunning a _ hr)⟩
    | true =>
      cases hm : a.metadata with
      | none =>
        rw [getCTI_noMetadata a st hr hm]
        exact ⟨congrArg QueryResult.snapshot (getCTI_noMetadata a _ hr hm),
          congrArg QueryResult.didFullFetch (getCTI_noMetadata a _ hr hm)⟩
      | some bag =>
        cases hc : st.cache with
        | none =>
          rw [getCTI_cacheMiss_empty a st bag hr hm hc]
          dsimp only
          rw [getCTI_cacheHit a
            ({ cache := some (trackIdentityOf bag,
                              populateSnapshot bag a.queryPlayerState) })
            bag (populateSnapshot bag a.queryPlayerState) hr hm rfl]
          exact ⟨populate_bools_override bag a.queryPlayerState, rfl⟩
        | some p =>
          obtain ⟨cid, cached⟩ := p
          by_cases hid : cid = trackIdentityOf bag
          · rw [hid] at hc
            rw [getCTI_cacheHit a st bag cached hr hm hc]
            have hit := getCTI_cacheHit a st bag cached hr hm hc
            exact ⟨congrArg QueryResult.snapshot hit,
              congrArg QueryResult.didFullFetch hit⟩
          · rw [getCTI_cacheMiss_other a st bag cid cached hr hm hc hid]
            dsimp only
            rw [getCTI_cacheHit a
              ({ cache := some (trackIdentityOf bag,
                                populateSnapshot bag a.queryPlayerState) })
              bag (populateSnapshot bag a.queryPlayerState) hr hm rfl]
            exact ⟨populate_bools_override bag a.queryPlayerState, rfl⟩
  refine ⟨?_, key.2⟩
  rw [key.1]
  exact ⟨rfl, rfl, rfl, rfl, rfl, rfl, rfl⟩

/-- C6: after clearTrackCache, the next getCurrentTrackInfo performs a full
fresh metadata fetch from the adapter — whatever the previous cache held,
including a snapshot with the same track identity — and returns the freshly
populated snapshot. -/
theorem clearCache_forces_fresh_fetch (a : Adapter) (st : BridgeState)
    (bag : RawMetadataBag)
    (hre : a.reachable = true) (hrun : a.running = true)
    (hm : a.metadata = some bag) :
    (getCurrentTrackInfo a (clearTrackCache st)).didFullFetch = true ∧
    (getCurrentTrackInfo a (clearTrackCache st)).snapshot =
      populateSnapshot bag (getPlayerState a) := by
  have hr : a.isExternalPlayerRunning = true := by
    unfold Adapter.isExternalPlayerRunning
    rw [hre, hrun]
    rfl
  have h1 := getCTI_cacheMiss_empty a (clearTrackCache st) bag hr hm rfl
  rw [h1]
  exact ⟨rfl, rfl⟩

/-- Witness for C6: the cache already holds the current track identity, yet
after clearTrackCache the query re-fetches in full. -/
theorem clearCache_forces_fresh_fetch_witness :
    (adapterOn.reachable = true ∧ adapterOn.running = true ∧
      adapterOn.metadata = some sampleBag) ∧
    ((getCurrentTrackInfo adapterOn
        (clearTrackCache (getCurrentTrackInfo adapterOn BridgeState.empty).after)).didFullFetch = true ∧
      (getCurrentTrackInfo adapterOn
        (clearTrackCache (getCurrentTrackInfo adapterOn BridgeState.empty).after)).snapshot =
        populateSnapshot sampleBag (getPlayerState adapterOn)) :=
  ⟨⟨rfl, rfl, rfl⟩,
    clearCache_forces_fresh_fetch adapterOn
      (getCurrentTrackInfo adapterOn BridgeState.empty).after sampleBag rfl rfl rfl⟩

/-- After a successful query the cache is keyed by the identity of the bag
that was current during the query. -/
theorem after_cache_keyed (a : Adapter) (st : BridgeState) (bag : RawMetadataBag)
    (hr : a.isExternalPlayerRunning = true) (hm : a.metadata = some bag) :
    ∃ c, (getCurrentTrackInfo a st).after.cache =
      some (trackIdentityOf bag, c) := by
  cases hc : st.cache with
  | none =>
    rw [getCTI_cacheMiss_empty a st bag hr hm hc]
    exact ⟨populateSnapshot bag a.queryPlayerState, rfl⟩
  | some p =>
    obtain ⟨cid, cached⟩ := p
    by_cases hid : cid = trackIdentityOf bag
    · rw [hid] at hc
      rw [getCTI_cacheHit a st bag cached hr hm hc]
      exact ⟨cached, hc⟩
    · rw [getCTI_cacheMiss_other a st bag cid cached hr hm hc hid]
      exact ⟨populateSnapshot bag a.queryPlayerState, rfl⟩

/-- C7: when the raw metadata's persistent identifier changes between two
successive getCurrentTrackInfo calls, the second call's snapshot is the
fresh population of the new raw bag — never the previous cache contents —
and a full fetch is performed. -/
theorem identity_change_refetch (a₁ a₂ : Adapter) (st : BridgeState)
    (bag₁ bag₂ : RawMetadataBag) (p₁ p₂ : String)
    (h1re : a₁.reachable = true) (h1run : a₁.running = true)
    (h1m : a₁.metadata = some bag₁) (h1p : bag₁.persistentID = some p₁)
    (h2re : a₂.reachable = true) (h2run : a₂.running = true)
    (h2m : a₂.metadata = some bag₂) (h2p : bag₂.persistentID = some p₂)
    (hne : p₁ ≠ p₂) :
    (getCurrentTrackInfo a₂ (getCurrentTrackInfo a₁ st).after).snapshot =
      populateSnapshot bag₂ (getPlayerState a₂) ∧
    (getCurrentTrackInfo a₂ (getCurrentTrackInfo a₁ st).after).didFullFetch =
      true := by
  have hr₁ : a₁.isExternalPlayerRunning = true := by
    unfold Adapter.isExternalPlayerRunning
    rw [h1re, h1run]
    rfl
  have hr₂ : a₂.isExternalPlayerRunning = true := by
    unfold Adapter.isExternalPlayerRunning
    rw [h2re, h2run]
    rfl
  obtain ⟨c, hc⟩ := after_cache_keyed a₁ st bag₁ hr₁ h1m
  have hident : trackIdentityOf bag₁ ≠ trackIdentityOf bag₂ := by
    unfold trackIdentityOf
    rw [h1p, h2p]
    simp [hne]
  have h2 := getCTI_cacheMiss_other a₂ (getCurrentTrackInfo a₁ st).after bag₂
    (trackIdentityOf bag₁) c hr₂ h2m hc hident
  rw [h2]
  exact ⟨rfl, rfl⟩

/-- A second sample raw metadata bag with a different persistent ID. -/
def sampleBag2 : RawMetadataBag :=
  { title := some "Song B"
    artist := some "Artist B"
    album := some "Album B"
    albumArtist := none
    composer := some "Composer B"
    genre := some "Rock"
    persistentID := some "PID0002"
    databaseID := some 8
    year := some 1999
    trackNumber := some 1
    trackCount := some 10
    discNumber := some 1
    discCount := some 2
    duration := some 180
    playedCount := some 2
    rating := some 60
    playedDate := some 2000 }

/-- A sample adapter playing the second sample track. -/
def adapterOn2 : Adapter :=
  { reachable := true
    running := true
    state := MusicPlayerState.paused
    position := some 7
    metadata := some sampleBag2 }

/-- Witness for C7 at two concrete adapters with different persistent IDs. -/
theorem identity_change_refetch_witness :
    (adapterOn.reachable = true ∧ adapterOn.running = true ∧
      adapterOn.metadata = some sampleBag ∧
      sampleBag.persistentID = some "PID0001" ∧
      adapterOn2.reachable = true ∧ adapterOn2.running = true ∧
      adapterOn2.metadata = some sampleBag2 ∧
      sampleBag2.persistentID = some "PID0002" ∧
      "PID0001" ≠ "PID0002") ∧
    ((getCurrentTrackInfo adapterOn2
        (getCurrentTrackInfo adapterOn BridgeState.empty).after).snapshot =
        populateSnapshot sampleBag2 (getPlayerState adapterOn2) ∧
      (getCurrentTrackInfo adapterOn2
        (getCurrentTrackInfo adapterOn BridgeState.empty).after).didFullFetch =
        true) :=
  ⟨⟨rfl, rfl, rfl, rfl, rfl, rfl, rfl, rfl, by decide⟩,
    identity_change_refetch adapterOn adapterOn2 BridgeState.empty
      sampleBag sampleBag2 "PID0001" "PID0002"
      rfl rfl rfl rfl rfl rfl rfl rfl (by decide)⟩

/-- C8: no accessor has an error path.  When the automation channel is
unreachable, getPlayerState returns Stopped, getCurrentTrackInfo returns the
invalid snapshot and getPlayerPosition returns 0.0 — exactly the outcomes of
a reachable but not-running player.  (Every accessor is a total function by
construction: it always returns a value, never an error code.) -/
theorem unreachable_same_as_not_running (a : Adapter) (st : BridgeState)
    (h : a.reachable = false) :
    getPlayerState a = MusicPlayerState.stopped ∧
    (getCurrentTrackInfo a st).snapshot = invalidSnapshot ∧
    getPlayerPosition a = 0 ∧
    getPlayerState a =
      getPlayerState { a with reachable := true, running := false } ∧
    (getCurrentTrackInfo a st).snapshot =
      (getCurrentTrackInfo { a with reachable := true, running := false }
        st).snapshot ∧
    getPlayerPosition a =
      getPlayerPosition { a with reachable := true, running := false } := by
  have hr : a.isExternalPlayerRunning = false := by
    unfold Adapter.isExternalPlayerRunning
    rw [h, Bool.false_and]
  have hr2 : ({ a with reachable := true, running := false } :
      Adapter).isExternalPlayerRunning = false := rfl
  have hsnap := getCTI_notRunning a st hr
  have hsnap2 :=
    getCTI_notRunning { a with reachable := true, running := false } st hr2
  refine ⟨?_, ?_, ?_, ?_, ?_, ?_⟩
  · unfold getPlayerState Adapter.queryPlayerState
    rw [hr]
    rfl
  · rw [hsnap]
  · unfold getPlayerPosition Adapter.queryPosition
    rw [hr]
    rfl
  · unfold getPlayerState Adapter.queryPlayerState
    rw [hr, hr2]
  · rw [hsnap, hsnap2]
  · unfold getPlayerPosition Adapter.queryPosition
    rw [hr, hr2]

/-- A sample adapter whose automation channel is unreachable. -/
def adapterUnreachable : Adapter :=
  { reachable := false
    running := true
    state := MusicPlayerState.playing
    position := some 33
    metadata := some sampleBag }

/-- Witness for C8 at a concrete unreachable adapter. -/
theorem unreachable_same_as_not_running_witness :
    adapterUnreachable.reachable = false ∧
    (getPlayerState adapterUnreachable = MusicPlayerState.stopped ∧
      (getCurrentTrackInfo adapterUnreachable BridgeState.empty).snapshot =
        invalidSnapshot ∧
      getPlayerPosition adapterUnreachable = 0 ∧
      getPlayerState adapterUnreachable =
        getPlayerState { adapterUnreachable with
                          reachable := true, running := false } ∧
      (getCurrentTrackInfo adapterUnreachable BridgeState.empty).snapshot =
        (getCurrentTrackInfo { adapterUnreachable with
                                reachable := true, running := false }
          BridgeState.empty).snapshot ∧
      getPlayerPosition adapterUnreachable =
        getPlayerPosition { adapterUnreachable with
                             reachable := true, running := false }) :=
  ⟨rfl, unreachable_same_as_not_running adapterUnreachable BridgeState.empty rfl⟩

/-- A raw bag whose numeric fields are all absent. -/
def bagNumericAbsent : RawMetadataBag :=
  { title := some "Song Z"
    artist := some "Artist Z"
    album := some "Album Z"
    albumArtist := none
    composer := none
    genre := none
    persistentID := some "PIDZ"
    databaseID := none
    year := none
    trackNumber := none
    trackCount := none
    discNumber := none
    discCount := none
    duration := none
    playedCount := none
    rating := none
    playedDate := none }

/-- The same raw bag with every numeric field genuinely present and equal to
zero. -/
def bagNumericZero : RawMetadataBag :=
  { bagNumericAbsent with
    databaseID := some 0
    year := some 0
    trackNumber := some 0
    trackCount := some 0
    discNumber := some 0
    discCount := some 0
    duration := some 0
    playedCount := some 0
    rating := some 0
    playedDate := some 0 }

/-- An adapter playing the track whose numeric metadata is absent. -/
def adapterNumericAbsent : Adapter :=
  { reachable := true
    running := true
    state := MusicPlayerState.playing
    position := some 1
    metadata := some bagNumericAbsent }

/-- An adapter playing the track whose numeric metadata is genuinely zero. -/
def adapterNumericZero : Adapter :=
  { adapterNumericAbsent with metadata := some bagNumericZero }

/-- C10 counterexample: two raw bags that differ in every numeric field —
in one they are all absent, in the other all genuinely zero — produce
exactly the same getCurrentTrackInfo result, so the sentinel defaults
(0 for counts/ids, 0.0 for duration/timestamp) are NOT distinguishable by
the caller from real zero values, contrary to the claim. -/
theorem sentinel_zero_indistinguishable :
    bagNumericAbsent ≠ bagNumericZero ∧
    bagNumericAbsent.databaseID = none ∧
    bagNumericZero.databaseID = some 0 ∧
    bagNumericAbsent.duration = none ∧
    bagNumericZero.duration = some 0 ∧
    getCurrentTrackInfo adapterNumericAbsent BridgeState.empty =
      getCurrentTrackInfo adapterNumericZero BridgeState.empty := by
  refine ⟨by decide, rfl, rfl, rfl, rfl, ?_⟩
  decide

/-- C10 amended: every numeric field absent from the raw bag is normalized
to the documented sentinel default (0 for counts/ids, 0.0 for
duration/timestamp) rather than left undefined — but that sentinel
coincides with a genuine zero value, so it is not distinguishable by the
caller from a real zero. -/
theorem absent_numeric_fields_normalized (bag : RawMetadataBag)
    (q : MusicPlayerState)
    (h1 : bag.databaseID = none) (h2 : bag.year = none)
    (h3 : bag.trackNumber = none) (h4 : bag.trackCount = none)
    (h5 : bag.discNumber = none) (h6 : bag.discCount = none)
    (h7 : bag.duration = none) (h8 : bag.playedCount = none)
    (h9 : bag.rating = none) (h10 : bag.playedDate = none) :
    (populateSnapshot bag q).databaseID = 0 ∧
    (populateSnapshot bag q).year = 0 ∧
    (populateSnapshot bag q).trackNumber = 0 ∧
    (populateSnapshot bag q).trackCount = 0 ∧
    (populateSnapshot bag q).discNumber = 0 ∧
    (populateSnapshot bag q).discCount = 0 ∧
    (populateSnapshot bag q).duration = 0 ∧
    (populateSnapshot bag q).playedCount = 0 ∧
    (populateSnapshot bag q).rating = 0 ∧
    (populateSnapshot bag q).playedDate = 0 := by
  simp [populateSnapshot, h1, h2, h3, h4, h5, h6, h7, h8, h9, h10]

/-- Witness for the amended C10 at the concrete all-absent raw bag. -/
theorem absent_numeric_fields_normalized_witness :
    (bagNumericAbsent.databaseID = none ∧ bagNumericAbsent.year = none ∧
      bagNumericAbsent.trackNumber = none ∧
      bagNumericAbsent.trackCount = none ∧
      bagNumericAbsent.discNumber = none ∧
      bagNumericAbsent.discCount = none ∧ bagNumericAbsent.duration = none ∧
      bagNumericAbsent.playedCount = none ∧ bagNumericAbsent.rating = none ∧
      bagNumericAbsent.playedDate = none) ∧
    ((populateSnapshot bagNumericAbsent MusicPlayerState.playing).databaseID = 0 ∧
      (populateSnapshot bagNumericAbsent MusicPlayerState.playing).year = 0 ∧
      (populateSnapshot bagNumericAbsent MusicPlayerState.playing).trackNumber = 0 ∧
      (populateSnapshot bagNumericAbsent MusicPlayerState.playing).trackCount = 0 ∧
      (populateSnapshot bagNumericAbsent MusicPlayerState.playing).discNumber = 0 ∧
      (populateSnapshot bagNumericAbsent MusicPlayerState.playing).discCount = 0 ∧
      (populateSnapshot bagNumericAbsent MusicPlayerState.playing).duration = 0 ∧
      (populateSnapshot bagNumericAbsent MusicPlayerState.playing).playedCount = 0 ∧
      (populateSnapshot bagNumericAbsent MusicPlayerState.playing).rating = 0 ∧
      (populateSnapshot bagNumericAbsent MusicPlayerState.playing).playedDate = 0) :=
  ⟨⟨rfl, rfl, rfl, rfl, rfl, rfl, rfl, rfl, rfl, rfl⟩,
    absent_numeric_fields_normalized bagNumericAbsent MusicPlayerState.playing
      rfl rfl rfl rfl rfl rfl rfl rfl rfl rfl⟩

end MusicScriptingBridge
